import Mathlib

/-!
Shallow embedding of the waypoint-marker map component
(`src/components/Map.tsx`): the waypoint store held in React state, the
interaction mode, the gesture handlers, the derived path geometry and the
transient notification timer, together with proofs of the specified
properties.
-/

/-- A waypoint as declared in `Map.tsx`: `{ id, latitude, longitude }`.
Coordinates are modelled as rationals; the handlers never compute with
them, they only store and copy them. -/
structure Waypoint where
  id : Nat
  latitude : Rat
  longitude : Rat
  deriving DecidableEq

/-- The `MapView` component state: the `useState` hooks `waypoints`,
`isPlacingMode`, `showCoordinates`, `draggingMarkerId`, `popupMarkerId`
and `modeMessage`. -/
structure AppState where
  waypoints : List Waypoint
  isPlacingMode : Bool
  showCoordinates : Bool
  draggingMarkerId : Option Nat
  popupMarkerId : Option Nat
  modeMessage : Option String
  deriving DecidableEq

/-- `handleMapClick`: always reset `popupMarkerId`; in Placing mode append
a new waypoint with `id = waypoints.length + 1` at the clicked position. -/
def handleMapClick (s : AppState) (lat lng : Rat) : AppState :=
  let s' := { s with popupMarkerId := none }
  if s'.isPlacingMode then
    { s' with
        waypoints := s'.waypoints ++
          [{ id := s'.waypoints.length + 1, latitude := lat, longitude := lng }] }
  else s'

/-- `handleDrag`: map over the waypoints, replacing the position of the
one whose `id` matches and leaving every other waypoint as it is. -/
def handleDrag (s : AppState) (id : Nat) (lat lng : Rat) : AppState :=
  { s with
      waypoints := s.waypoints.map fun w =>
        if w.id = id then { w with latitude := lat, longitude := lng } else w }

/-- `handleDragStart`: record the dragged marker's id. -/
def handleDragStart (s : AppState) (id : Nat) : AppState :=
  { s with draggingMarkerId := some id }

/-- `handleDragEnd`: stop tracking the drag. -/
def handleDragEnd (s : AppState) : AppState :=
  { s with draggingMarkerId := none }

/-- `handleMarkerContextMenu`: toggle the delete button for the
right-clicked marker, `setPopupMarkerId((prev) => (prev === id ? null : id))`. -/
def handleMarkerContextMenu (s : AppState) (id : Nat) : AppState :=
  { s with popupMarkerId := if s.popupMarkerId = some id then none else some id }

/-- `deleteMarker`: remove the waypoint with the given id, renumber the
remaining waypoints sequentially to `index + 1`, and hide the delete
button. -/
def deleteMarker (s : AppState) (id : Nat) : AppState :=
  { s with
      waypoints :=
        ((s.waypoints.filter fun w => w.id != id).mapIdx
          fun index w => { w with id := index + 1 }),
      popupMarkerId := none }

/-- The Clear button's `onClick`: `setWaypoints([])`. -/
def clearWaypoints (s : AppState) : AppState :=
  { s with waypoints := [] }

/-- `toggleMode`: flip `isPlacingMode` and show the matching transient
message (the scheduled clearing of the message is modelled separately,
as the `timerFire` event and in the timed notification model below). -/
def toggleMode (s : AppState) : AppState :=
  let newMode := !s.isPlacingMode
  { s with
      isPlacingMode := newMode,
      modeMessage := some (if newMode then "Placing Mode" else "Dragging Mode") }

/-- The coordinates array of the `LineString` in `geojson`:
`waypoints.map((wp) => [wp.longitude, wp.latitude])`. -/
def geojsonCoordinates (waypoints : List Waypoint) : List (Rat × Rat) :=
  waypoints.map fun wp => (wp.longitude, wp.latitude)

/-- The UI events that mutate the component state. -/
inductive Event where
  | click (lat lng : Rat)
  | drag (id : Nat) (lat lng : Rat)
  | dragStart (id : Nat)
  | dragEnd
  | contextMenu (id : Nat)
  | deleteClick (id : Nat)
  | clearAll
  | toggle
  | timerFire

/-- Dispatch one event to its handler. `timerFire` is the body of the
`setTimeout` callback in `showModeMessage`: `setModeMessage(null)`. -/
def step (s : AppState) : Event → AppState
  | .click lat lng => handleMapClick s lat lng
  | .drag id lat lng => handleDrag s id lat lng
  | .dragStart id => handleDragStart s id
  | .dragEnd => handleDragEnd s
  | .contextMenu id => handleMarkerContextMenu s id
  | .deleteClick id => deleteMarker s id
  | .clearAll => clearWaypoints s
  | .toggle => toggleMode s
  | .timerFire => { s with modeMessage := none }

/-- The initial component state: no waypoints, Placing mode. -/
def initState : AppState :=
  { waypoints := [], isPlacingMode := true, showCoordinates := false,
    draggingMarkerId := none, popupMarkerId := none, modeMessage := none }

/-- Run a finite sequence of events from the initial state. -/
def run (es : List Event) : AppState := es.foldl step initState

/-- The id invariant: the ids of the stored waypoints are exactly
`1, 2, ..., length` in list order, so `id = index + 1` everywhere. -/
def wellNumbered (ws : List Waypoint) : Prop :=
  ws.map Waypoint.id = List.range' 1 ws.length

instance (ws : List Waypoint) : Decidable (wellNumbered ws) := by
  unfold wellNumbered
  exact inferInstance

/-!
Timed model of the transient notification. `showModeMessage` sets the
message and schedules `setModeMessage(null)` to run 3000 ms later; the
scheduled callback is not keyed to its own invocation and clears whatever
message is current when it fires.
-/

/-- The notification-related state: the current message and the deadlines
(absolute, in milliseconds) of the pending `setTimeout` callbacks. -/
structure NotifState where
  modeMessage : Option String
  pendingClears : List Nat
  deriving DecidableEq

/-- `showModeMessage(message)` invoked at absolute time `now`:
`setModeMessage(message)`, then `setTimeout(() => setModeMessage(null), 3000)`. -/
def showModeMessage (now : Nat) (message : String) (st : NotifState) : NotifState :=
  { modeMessage := some message, pendingClears := st.pendingClears ++ [now + 3000] }

/-- Run the scheduled timeout callbacks whose deadline is `t`: each one
executes `setModeMessage(null)` unconditionally. -/
def fireClearsAt (t : Nat) (st : NotifState) : NotifState :=
  if st.pendingClears.contains t then
    { modeMessage := none, pendingClears := st.pendingClears.filter fun d => d != t }
  else st

/-- One millisecond of simulated time `t`: due timeouts fire, then the
`showModeMessage` calls issued at this instant run. -/
def notifTick (shows : List (Nat × String)) (st : NotifState) (t : Nat) : NotifState :=
  (shows.filter fun p => p.1 == t).foldl
    (fun acc p => showModeMessage t p.2 acc) (fireClearsAt t st)

/-- The notification state after all instants `0, 1, ..., t` have been
simulated, given the list of `showModeMessage` calls as (time in ms,
text) pairs, starting from no message and no pending timers. -/
def simState (shows : List (Nat × String)) (t : Nat) : NotifState :=
  (List.range (t + 1)).foldl (notifTick shows) ⟨none, []⟩

/-- The message visible at time `t` (ms). -/
def messageAt (shows : List (Nat × String)) (t : Nat) : Option String :=
  (simState shows t).modeMessage

/-- The show calls of the spec's race scenario: "Dragging Mode" at 0 ms,
"Placing Mode" at 1000 ms. -/
def raceScenario : List (Nat × String) :=
  [(0, "Dragging Mode"), (1000, "Placing Mode")]

lemma simState_succ (shows : List (Nat × String)) (t : Nat) :
    simState shows (t + 1) = notifTick shows (simState shows t) (t + 1) := by
  unfold simState
  rw [List.range_succ, List.foldl_append, List.foldl_cons, List.foldl_nil]

lemma notifTick_inactive (shows : List (Nat × String)) (st : NotifState) (t : Nat)
    (h1 : shows.filter (fun p => p.1 == t) = [])
    (h2 : st.pendingClears.contains t = false) :
    notifTick shows st t = st := by
  unfold notifTick fireClearsAt
  rw [h1, h2]
  rfl

lemma raceScenario_quiet (t : Nat) (h0 : t ≠ 0) (h1000 : t ≠ 1000) :
    raceScenario.filter (fun p => p.1 == t) = [] := by
  simp [raceScenario]
  omega

lemma simState_race_upto_999 : ∀ k, k ≤ 999 →
    simState raceScenario k = ⟨some "Dragging Mode", [3000]⟩ := by
  intro k
  induction k with
  | zero => intro _; rfl
  | succ m ih =>
    intro h
    rw [simState_succ, ih (by omega)]
    apply notifTick_inactive
    · exact raceScenario_quiet _ (by omega) (by omega)
    · simp
      omega

lemma simState_race_1000 :
    simState raceScenario 1000 = ⟨some "Placing Mode", [3000, 4000]⟩ := by
  rw [show (1000 : Nat) = 999 + 1 from rfl, simState_succ,
    simState_race_upto_999 999 (by omega)]
  rfl

lemma simState_race_upto_2999 : ∀ d, d ≤ 1999 →
    simState raceScenario (1000 + d) = ⟨some "Placing Mode", [3000, 4000]⟩ := by
  intro d
  induction d with
  | zero => intro _; exact simState_race_1000
  | succ m ih =>
    intro h
    rw [show 1000 + (m + 1) = (1000 + m) + 1 from rfl, simState_succ,
      ih (by omega)]
    apply notifTick_inactive
    · exact raceScenario_quiet _ (by omega) (by omega)
    · simp
      omega

/-- A sample populated state used to instantiate the general theorems. -/
def sampleState : AppState :=
  { waypoints := [⟨1, 10, 20⟩, ⟨2, 30, 40⟩, ⟨3, 50, 60⟩],
    isPlacingMode := true, showCoordinates := false,
    draggingMarkerId := none, popupMarkerId := none, modeMessage := none }

/-- Running the Placing-mode click handler over a list of coordinates. -/
def runClicks (coords : List (Rat × Rat)) (s : AppState) : AppState :=
  coords.foldl (fun acc c => handleMapClick acc c.1 c.2) s

lemma drag_preserves_ids (s : AppState) (id : Nat) (lat lng : Rat) :
    (handleDrag s id lat lng).waypoints.map Waypoint.id =
      s.waypoints.map Waypoint.id := by
  unfold handleDrag
  rw [List.map_map]
  apply List.map_congr_left
  intro w _
  by_cases h : w.id = id <;> simp [h]

/-- Claim C2: the code's `showModeMessage` schedules an unkeyed
`setModeMessage(null)`; in the spec's scenario (show "Dragging Mode" at
0 ms, "Placing Mode" at 1000 ms) the second message is still visible at
2999 ms but the first call's timeout erases it at 3000 ms, contradicting
the claim that it stays visible until 4000 ms. -/
theorem staleTimerClearsNewMessage :
    messageAt raceScenario 2999 = some "Placing Mode"
    ∧ messageAt raceScenario 3000 = none := by
  constructor
  · rw [messageAt, show (2999 : Nat) = 1000 + 1999 from rfl,
      simState_race_upto_2999 1999 (by omega)]
  · rw [messageAt, show (3000 : Nat) = (1000 + 1999) + 1 from rfl, simState_succ,
      simState_race_upto_2999 1999 (by omega)]
    rfl

/-- Claim C6: `handleDrag` (the store's `updatePosition`) is idempotent:
applying it twice with the same arguments equals applying it once. -/
theorem handleDrag_idempotent (s : AppState) (id : Nat) (lat lng : Rat) :
    handleDrag (handleDrag s id lat lng) id lat lng = handleDrag s id lat lng := by
  unfold handleDrag
  simp only [List.map_map]
  congr 1
  apply List.map_congr_left
  intro w _
  by_cases h : w.id = id <;> simp [h]

/-- Claim C7: the `geojson` LineString has exactly one (longitude,
latitude) pair per waypoint, in store order, each equal to the matching
waypoint's coordinates; hence its coordinate count equals the waypoint
count. -/
theorem geojson_matches_waypoints (ws : List Waypoint) :
    (geojsonCoordinates ws).length = ws.length
    ∧ ∀ i : Nat, (geojsonCoordinates ws)[i]? =
        ws[i]?.map fun wp => (wp.longitude, wp.latitude) := by
  refine ⟨List.length_map ws _, fun i => ?_⟩
  simp [geojsonCoordinates]

/-- Claim C8: a map click adds a waypoint (appended, with id = prior
count + 1) exactly when the mode is Placing, leaves the waypoint list
unchanged in Dragging mode, and in either mode resets the
delete-affordance id to `none`. -/
theorem handleMapClick_mode_gated (s : AppState) (lat lng : Rat) :
    (handleMapClick s lat lng).popupMarkerId = none
    ∧ (s.isPlacingMode = true →
        (handleMapClick s lat lng).waypoints =
          s.waypoints ++
            [{ id := s.waypoints.length + 1, latitude := lat, longitude := lng }])
    ∧ (s.isPlacingMode = false →
        (handleMapClick s lat lng).waypoints = s.waypoints) := by
  unfold handleMapClick
  refine ⟨?_, ?_, ?_⟩
  · by_cases h : s.isPlacingMode <;> simp [h]
  · intro h
    simp [h]
  · intro h
    simp [h]

/-- Witness for C8 at concrete states in both modes. -/
theorem handleMapClick_mode_gated_witness :
    (handleMapClick initState 5 6).waypoints =
        initState.waypoints ++ [{ id := 1, latitude := 5, longitude := 6 }]
    ∧ (handleMapClick { initState with isPlacingMode := false } 5 6).waypoints =
        ({ initState with isPlacingMode := false } : AppState).waypoints
    ∧ (handleMapClick { sampleState with popupMarkerId := some 3 } 5 6).popupMarkerId
        = none :=
  ⟨(handleMapClick_mode_gated initState 5 6).2.1 rfl,
   (handleMapClick_mode_gated { initState with isPlacingMode := false } 5 6).2.2 rfl,
   (handleMapClick_mode_gated { sampleState with popupMarkerId := some 3 } 5 6).1⟩

/-- Claim C9: the Clear button empties the waypoint list and changes no
other component state: mode, coordinate-box flag, drag id,
delete-affordance id and notification message are untouched. -/
theorem clearWaypoints_frame (s : AppState) :
    (clearWaypoints s).waypoints = []
    ∧ (clearWaypoints s).isPlacingMode = s.isPlacingMode
    ∧ (clearWaypoints s).showCoordinates = s.showCoordinates
    ∧ (clearWaypoints s).draggingMarkerId = s.draggingMarkerId
    ∧ (clearWaypoints s).popupMarkerId = s.popupMarkerId
    ∧ (clearWaypoints s).modeMessage = s.modeMessage :=
  ⟨rfl, rfl, rfl, rfl, rfl, rfl⟩

/-- Claim C10: right-clicking a marker toggles the delete affordance
(same id closes it, different id moves it there), in any mode, and never
changes the waypoint list. -/
theorem contextMenu_toggles_popup (s : AppState) (id : Nat) :
    (s.popupMarkerId = some id →
        (handleMarkerContextMenu s id).popupMarkerId = none)
    ∧ (s.popupMarkerId ≠ some id →
        (handleMarkerContextMenu s id).popupMarkerId = some id)
    ∧ (handleMarkerContextMenu s id).waypoints = s.waypoints
    ∧ (handleMarkerContextMenu s id).isPlacingMode = s.isPlacingMode
    ∧ (handleMarkerContextMenu s id).draggingMarkerId = s.draggingMarkerId
    ∧ (handleMarkerContextMenu s id).modeMessage = s.modeMessage := by
  unfold handleMarkerContextMenu
  refine ⟨fun h => by simp [h], fun h => by simp [h], rfl, rfl, rfl, rfl⟩

/-- Witness for C10: closing an open affordance and opening a closed one. -/
theorem contextMenu_toggles_popup_witness :
    (handleMarkerContextMenu { sampleState with popupMarkerId := some 2 } 2).popupMarkerId
        = none
    ∧ (handleMarkerContextMenu sampleState 2).popupMarkerId = some 2 :=
  ⟨(contextMenu_toggles_popup { sampleState with popupMarkerId := some 2 } 2).1 rfl,
   (contextMenu_toggles_popup sampleState 2).2.1 (by decide)⟩

lemma runClicks_placing : ∀ (coords : List (Rat × Rat)) (s : AppState),
    s.isPlacingMode = true →
    (runClicks coords s).isPlacingMode = true
    ∧ (runClicks coords s).waypoints.map Waypoint.id =
        s.waypoints.map Waypoint.id ++
          List.range' (s.waypoints.length + 1) coords.length := by
  intro coords
  induction coords with
  | nil =>
    intro s h
    exact ⟨h, by simp [runClicks]⟩
  | cons c cs ih =>
    intro s h
    have h1 : (handleMapClick s c.1 c.2).isPlacingMode = true := by
      unfold handleMapClick
      simp [h]
    have h2 : (handleMapClick s c.1 c.2).waypoints.map Waypoint.id =
        s.waypoints.map Waypoint.id ++ [s.waypoints.length + 1] := by
      unfold handleMapClick
      simp [h]
    have h3 : (handleMapClick s c.1 c.2).waypoints.length =
        s.waypoints.length + 1 := by
      unfold handleMapClick
      simp [h]
    obtain ⟨ha, hb⟩ := ih (handleMapClick s c.1 c.2) h1
    refine ⟨ha, ?_⟩
    rw [show runClicks (c :: cs) s = runClicks cs (handleMapClick s c.1 c.2) from rfl,
      hb, h2, h3, List.length_cons, List.range'_succ, List.append_assoc,
      List.singleton_append]

/-- Claim C4: N Placing-mode clicks from the empty store yield N
waypoints whose ids are 1..N in call order, and each individual click in
Placing mode appends one waypoint with id = prior count + 1. -/
theorem adds_number_sequentially (coords : List (Rat × Rat)) :
    (runClicks coords initState).waypoints.map Waypoint.id =
        List.range' 1 coords.length
    ∧ (runClicks coords initState).waypoints.length = coords.length
    ∧ (∀ s : AppState, ∀ lat lng : Rat, s.isPlacingMode = true →
        (handleMapClick s lat lng).waypoints =
          s.waypoints ++
            [{ id := s.waypoints.length + 1, latitude := lat, longitude := lng }]) := by
  have h := (runClicks_placing coords initState rfl).2
  refine ⟨by simpa [initState] using h, ?_, ?_⟩
  · have h2 := congrArg List.length h
    simpa [initState] using h2
  · intro s lat lng hmode
    unfold handleMapClick
    simp [hmode]

/-- Witness for C4 at two concrete clicks. -/
theorem adds_number_sequentially_witness :
    (runClicks [(1, 2), (3, 4)] initState).waypoints.map Waypoint.id =
        List.range' 1 2
    ∧ (handleMapClick sampleState 5 6).waypoints =
        sampleState.waypoints ++ [{ id := 4, latitude := 5, longitude := 6 }] :=
  ⟨(adds_number_sequentially [(1, 2), (3, 4)]).1,
   (adds_number_sequentially []).2.2 sampleState 5 6 rfl⟩

/-- Claim C5: `handleDrag` changes only the coordinates of the waypoint
with the given id: length, ids and order are preserved, every waypoint at
a position with a different id is untouched, and if no waypoint has the
id the whole state is unchanged; no field other than `waypoints` is
touched. -/
theorem handleDrag_updates_only_target (s : AppState) (id : Nat) (lat lng : Rat) :
    (handleDrag s id lat lng).waypoints.length = s.waypoints.length
    ∧ (∀ i : Nat, ∀ w : Waypoint, s.waypoints[i]? = some w → w.id ≠ id →
        (handleDrag s id lat lng).waypoints[i]? = some w)
    ∧ (∀ i : Nat, ∀ w : Waypoint, s.waypoints[i]? = some w → w.id = id →
        (handleDrag s id lat lng).waypoints[i]? =
          some { w with latitude := lat, longitude := lng })
    ∧ ((∀ w ∈ s.waypoints, w.id ≠ id) → handleDrag s id lat lng = s)
    ∧ (handleDrag s id lat lng).waypoints.map Waypoint.id =
        s.waypoints.map Waypoint.id
    ∧ (handleDrag s id lat lng).isPlacingMode = s.isPlacingMode
    ∧ (handleDrag s id lat lng).draggingMarkerId = s.draggingMarkerId
    ∧ (handleDrag s id lat lng).popupMarkerId = s.popupMarkerId
    ∧ (handleDrag s id lat lng).modeMessage = s.modeMessage := by
  refine ⟨by simp [handleDrag], ?_, ?_, ?_,
    drag_preserves_ids s id lat lng, rfl, rfl, rfl, rfl⟩
  · intro i w hw hne
    simp [handleDrag, hw, hne]
  · intro i w hw he
    simp [handleDrag, hw, he]
  · intro h
    have hmap : s.waypoints.map
        (fun w => if w.id = id then { w with latitude := lat, longitude := lng }
          else w) = s.waypoints :=
      (List.map_congr_left fun w hw => by simp [h w hw]).trans
        (List.map_id' s.waypoints)
    unfold handleDrag
    rw [hmap]

/-- Witness for C5: dragging id 2 in the sample store updates only that
entry, and dragging an absent id is a full no-op. -/
theorem handleDrag_updates_only_target_witness :
    (handleDrag sampleState 2 70 80).waypoints[1]? =
        some { id := 2, latitude := 70, longitude := 80 }
    ∧ (handleDrag sampleState 2 70 80).waypoints[0]? =
        some { id := 1, latitude := 10, longitude := 20 }
    ∧ handleDrag sampleState 9 70 80 = sampleState :=
  ⟨(handleDrag_updates_only_target sampleState 2 70 80).2.2.1 1 ⟨2, 30, 40⟩ rfl rfl,
   (handleDrag_updates_only_target sampleState 2 70 80).2.1 0 ⟨1, 10, 20⟩ rfl
     (by decide),
   (handleDrag_updates_only_target sampleState 9 70 80).2.2.2.1 (by decide)⟩

lemma renumber_map_id (l : List Waypoint) :
    ((l.mapIdx fun index w => { w with id := index + 1 }).map Waypoint.id)
      = List.range' 1 l.length := by
  refine List.ext_getElem (by simp) ?_
  intro i h1 h2
  simp
  omega

lemma renumber_map_pos (l : List Waypoint) :
    ((l.mapIdx fun index w => { w with id := index + 1 }).map
        fun w => (w.latitude, w.longitude))
      = l.map fun w => (w.latitude, w.longitude) := by
  refine List.ext_getElem (by simp) ?_
  intro i h1 h2
  simp

lemma wellNumbered_append (ws : List Waypoint) (h : wellNumbered ws)
    (lat lng : Rat) :
    wellNumbered
      (ws ++ [{ id := ws.length + 1, latitude := lat, longitude := lng }]) := by
  unfold wellNumbered at *
  rw [List.map_append, h, List.length_append]
  simp [List.range'_1_concat, Nat.add_comm]

lemma step_preserves_wellNumbered (s : AppState) (e : Event)
    (h : wellNumbered s.waypoints) : wellNumbered (step s e).waypoints := by
  cases e with
  | click lat lng =>
    show wellNumbered (handleMapClick s _ _).waypoints
    unfold handleMapClick
    by_cases hm : s.isPlacingMode
    · simpa [hm] using wellNumbered_append s.waypoints h lat lng
    · simpa [hm] using h
  | drag id lat lng =>
    show wellNumbered (handleDrag s id lat lng).waypoints
    unfold wellNumbered
    rw [drag_preserves_ids]
    have hlen : (handleDrag s id lat lng).waypoints.length =
        s.waypoints.length := by
      simp [handleDrag]
    rw [hlen]
    exact h
  | dragStart id => exact h
  | dragEnd => exact h
  | contextMenu id => exact h
  | deleteClick id =>
    show wellNumbered (deleteMarker s id).waypoints
    have hd : (deleteMarker s id).waypoints =
        ((s.waypoints.filter fun w => w.id != id).mapIdx
          fun index w => { w with id := index + 1 }) := rfl
    unfold wellNumbered
    rw [hd, renumber_map_id, List.length_mapIdx]
  | clearAll => rfl
  | toggle => exact h
  | timerFire => exact h

/-- Claim C1: in every state reachable by any finite sequence of events
(clicks, drags, deletions, clears, mode toggles, ...), the waypoint ids
are the dense 1-based gap-free sequence `1, 2, ..., length`, i.e.
`id = index + 1` for every stored waypoint. -/
theorem reachable_states_wellNumbered (es : List Event) :
    wellNumbered (run es).waypoints := by
  have key : ∀ (l : List Event) (s : AppState), wellNumbered s.waypoints →
      wellNumbered (l.foldl step s).waypoints := by
    intro l
    induction l with
    | nil => exact fun s hs => hs
    | cons e l ih => exact fun s hs => ih _ (step_preserves_wellNumbered s e hs)
  exact key es initState rfl

lemma filter_ne_eq_eraseIdx : ∀ (l : List Waypoint) (s k : Nat),
    l.map Waypoint.id = List.range' s l.length → s ≤ k → k < s + l.length →
    (l.filter fun w => w.id != k) = l.eraseIdx (k - s) := by
  intro l
  induction l with
  | nil =>
    intro s k _ h1 h2
    exfalso
    simp at h2
    omega
  | cons a l ih =>
    intro s k hmap h1 h2
    rw [List.map_cons, List.length_cons, List.range'_succ] at hmap
    simp only [List.cons.injEq] at hmap
    obtain ⟨ha, hl⟩ := hmap
    by_cases hk : k = s
    · subst hk
      have hfa : (a.id != k) = false := by simp [ha]
      rw [List.filter_cons, hfa, Nat.sub_self, List.eraseIdx_cons_zero]
      simp only [Bool.false_eq_true, if_false]
      apply List.filter_eq_self.mpr
      intro w hw
      have hmem : w.id ∈ List.map Waypoint.id l := List.mem_map_of_mem _ hw
      rw [hl, List.mem_range'_1] at hmem
      simp
      omega
    · have hfa : (a.id != k) = true := by
        simp [ha]
        omega
      rw [List.filter_cons, hfa, if_pos rfl,
        show k - s = (k - (s + 1)) + 1 by omega, List.eraseIdx_cons_succ]
      simp at h2
      rw [ih (s + 1) k hl (by omega) (by omega)]

/-- Claim C3: deleting the waypoint with id `k` from a well-numbered
store of N waypoints leaves N-1 waypoints whose ids are exactly 1..N-1,
with the survivors (all but the one at position k-1) keeping their
relative order and their coordinates. -/
theorem deleteMarker_renumbers (s : AppState) (k : Nat)
    (hwn : wellNumbered s.waypoints) (hk1 : 1 ≤ k)
    (hk2 : k ≤ s.waypoints.length) :
    (deleteMarker s k).waypoints.length = s.waypoints.length - 1
    ∧ (deleteMarker s k).waypoints.map Waypoint.id =
        List.range' 1 (s.waypoints.length - 1)
    ∧ (deleteMarker s k).waypoints.map (fun w => (w.latitude, w.longitude)) =
        (s.waypoints.eraseIdx (k - 1)).map fun w => (w.latitude, w.longitude) := by
  have hd : (deleteMarker s k).waypoints =
      ((s.waypoints.filter fun w => w.id != k).mapIdx
        fun index w => { w with id := index + 1 }) := rfl
  have hfilter : (s.waypoints.filter fun w => w.id != k) =
      s.waypoints.eraseIdx (k - 1) :=
    filter_ne_eq_eraseIdx s.waypoints 1 k hwn hk1 (by omega)
  have hlen : (s.waypoints.eraseIdx (k - 1)).length = s.waypoints.length - 1 :=
    List.length_eraseIdx_of_lt (by omega)
  refine ⟨?_, ?_, ?_⟩
  · rw [hd, List.length_mapIdx, hfilter, hlen]
  · rw [hd, renumber_map_id, hfilter, hlen]
  · rw [hd, renumber_map_pos, hfilter]

/-- Witness for C3: deleting id 2 from the three-waypoint sample store. -/
theorem deleteMarker_renumbers_witness :
    (deleteMarker sampleState 2).waypoints.length =
        sampleState.waypoints.length - 1
    ∧ (deleteMarker sampleState 2).waypoints.map Waypoint.id =
        List.range' 1 (sampleState.waypoints.length - 1)
    ∧ (deleteMarker sampleState 2).waypoints.map
          (fun w => (w.latitude, w.longitude)) =
        (sampleState.waypoints.eraseIdx 1).map fun w => (w.latitude, w.longitude) :=
  deleteMarker_renumbers sampleState 2 (by decide) (by decide) (by decide)
